import Mathlib

/-!
Verification development for the risk-gated trade decision engine of the
`ara-agent-service` repository.

The TypeScript source is shallowly embedded:
* JavaScript numbers used for prices, amounts and P&L are modelled as `ℚ`
  (every value manipulated by the claims is produced by field-wise arithmetic
  on decimal inputs; float rounding is not load-bearing for any claim here);
* millisecond timestamps (`Date.now()`) are modelled as `ℤ` and passed
  explicitly as a `now` argument wherever the source calls `Date.now()`;
* network collaborators (Jupiter quote probe, swap execution, DexScreener
  token info) are passed as explicit oracle values describing the response
  the source would have observed, with a thrown exception modelled as
  `Except.error`;
* the class fields mutated by a method become explicit state records that
  the embedded function threads through;
* the devnet mock-swap path (`MOCK_SWAPS`) is not taken: the embedding
  models the mainnet configuration (`USE_DEVNET = false`), which is the
  deployment the specification describes;
* human-readable message formatting (`toFixed`, locale time strings, the
  remapping of known Solana error codes to friendlier text) is abstracted:
  reasons and errors are carried as structured enums/payloads, since no
  claim depends on the exact rendered string.
-/

namespace Ara

/-! ## Constants (src/src/tools/wallet.ts) -/

def LAMPORTS_PER_SOL : ℚ := 1000000000

def SOL_MINT : String := "So11111111111111111111111111111111111111112"

def USDC_MINT : String := "EPjFWdd5AufqSSqeM2qN1xzybapC8G4wEGGkZwyTDt1v"

def PUMP_FUN_SUFFIX : String := "pump"

/-- `24 * 60 * 60 * 1000` from `canTrade` (wallet.ts:298). -/
def dayMs : ℤ := 24 * 60 * 60 * 1000

/-! ## WalletConfig and state (wallet.ts:37-51, 78-95) -/

structure WalletConfig where
  maxTradeSize : ℚ
  maxPositions : ℕ
  stopLossPercent : ℚ
  dailyLossLimit : ℚ
  cooldownMs : ℤ
deriving Repr, DecidableEq

/-- wallet.ts:45-51. -/
def DEFAULT_CONFIG : WalletConfig :=
  { maxTradeSize := 1/2
    maxPositions := 2
    stopLossPercent := 20
    dailyLossLimit := 1
    cooldownMs := 60000 }

/-- The mutable fields of `SolanaWallet` (wallet.ts:78-84).
`keypairLoaded` models `this.keypair !== null`. -/
structure WalletState where
  keypairLoaded : Bool
  config : WalletConfig
  lastTradeTime : ℤ
  dailyPnl : ℚ
  dailyPnlResetTime : ℤ
deriving Repr, DecidableEq

/-- The reason strings produced by `canTrade` (wallet.ts:278-309), as an enum
(the numeric fills of the messages are presentation only). -/
inductive DenyReason where
  | walletNotLoaded
  | amountExceedsMax
  | cooldownActive
  | dailyLossLimitReached
deriving Repr, DecidableEq

structure TradePermission where
  allowed : Bool
  reason : Option DenyReason
deriving Repr, DecidableEq

/-- `SolanaWallet.canTrade` (wallet.ts:278-309).  The method can mutate
`dailyPnl`/`dailyPnlResetTime` (the lazy daily-window roll), so it returns
the updated wallet state alongside the permission. -/
def canTrade (now : ℤ) (amountSol : ℚ) (w : WalletState) : WalletState × TradePermission :=
  if w.keypairLoaded = false then
    (w, ⟨false, some .walletNotLoaded⟩)
  else if w.config.maxTradeSize < amountSol then
    (w, ⟨false, some .amountExceedsMax⟩)
  else if now - w.lastTradeTime < w.config.cooldownMs then
    (w, ⟨false, some .cooldownActive⟩)
  else
    let w1 := if dayMs < now - w.dailyPnlResetTime then
        { w with dailyPnl := 0, dailyPnlResetTime := now }
      else w
    if w1.dailyPnl < -w1.config.dailyLossLimit then
      (w1, ⟨false, some .dailyLossLimitReached⟩)
    else
      (w1, ⟨true, none⟩)

/-- `SolanaWallet.updateDailyPnl` (wallet.ts:547-549): the `recordOutcome`
operation of the spec. -/
def updateDailyPnl (pnlSol : ℚ) (w : WalletState) : WalletState :=
  { w with dailyPnl := w.dailyPnl + pnlSol }

/-! ## Tradability probe (wallet.ts:224-275) -/

/-- The observable part of the Jupiter quote probe response:
`ok` is HTTP `response.ok`, `hasError` is the truthiness of `data.error`,
`routePlan` is `data.routePlan` (absent, or a list of routes of which only
the count matters to the source). -/
structure ProbeResponse where
  ok : Bool
  hasError : Bool
  routePlan : Option (List Unit)
deriving Repr, DecidableEq

inductive TradableReason where
  | pumpFunNotGraduated
  | noRoute
  | quoteFailed (err : String)
  | noJupiterRoute
deriving Repr, DecidableEq

structure TradableResult where
  tradable : Bool
  reason : Option TradableReason
deriving Repr, DecidableEq

/-- `tokenMint.toLowerCase()`: lowercase every character. -/
def jsToLower (s : String) : String := String.mk (s.data.map Char.toLower)

/-- `tokenMint.toLowerCase().endsWith(PUMP_FUN_SUFFIX)` (wallet.ts:226). -/
def endsWithPump (mint : String) : Bool :=
  PUMP_FUN_SUFFIX.data.isSuffixOf (jsToLower mint).data

/-- `SolanaWallet.isTokenTradable` (wallet.ts:224-275).  `probe` is the
outcome of the single `fetch` of a probe quote: `Except.error` when the
fetch (or JSON parsing) throws, `Except.ok` with the observed response
otherwise. -/
def isTokenTradable (tokenMint : String) (probe : Except String ProbeResponse) :
    TradableResult :=
  if endsWithPump tokenMint then
    match probe with
    | .error e => ⟨false, some (.quoteFailed e)⟩
    | .ok r =>
      if r.ok = false then
        ⟨false, some .pumpFunNotGraduated⟩
      else if r.hasError ||
          (match r.routePlan with
           | none => true
           | some routes => routes.length == 0) then
        ⟨false, some .noRoute⟩
      else
        ⟨true, none⟩
  else
    match probe with
    | .error _ => ⟨true, none⟩
    | .ok r =>
      if r.ok = false then ⟨false, some .noJupiterRoute⟩
      else ⟨true, none⟩

/-! ## PositionManager (src/src/tools/tokens.ts:246-436)

`this.positions : Map<string, Position>` is modelled as an association list
in insertion order with `mapSet` / `mapGet` / `mapDelete` mirroring
`Map.set` / `Map.get` / `Map.delete` (a JS `Map` keeps at most one entry
per key; `mapSet` replaces in place, `mapSet` on a fresh key appends).
Optional fields of `Position` are `Option`; the JS truthiness guards
(`position.stopLoss && ...`) test both presence and non-zeroness. -/

structure Position where
  tokenAddress : String
  tokenSymbol : String
  entryPrice : ℚ
  entryTime : ℤ
  amount : ℚ
  costBasis : ℚ
  currentPrice : Option ℚ
  unrealizedPnl : Option ℚ
  unrealizedPnlPercent : Option ℚ
  stopLoss : Option ℚ
  takeProfit : Option ℚ
deriving Repr, DecidableEq

abbrev PositionMap := List (String × Position)

/-- `Map.set`: replace the entry at the key if present, else append. -/
def mapSet (k : String) (v : Position) : PositionMap → PositionMap
  | [] => [(k, v)]
  | (k1, v1) :: rest =>
    if k1 = k then (k, v) :: rest else (k1, v1) :: mapSet k v rest

/-- `Map.get`. -/
def mapGet (k : String) : PositionMap → Option Position
  | [] => none
  | (k1, v1) :: rest => if k1 = k then some v1 else mapGet k rest

/-- `Map.delete`. -/
def mapDelete (k : String) : PositionMap → PositionMap
  | [] => []
  | (k1, v1) :: rest =>
    if k1 = k then rest else (k1, v1) :: mapDelete k rest

/-- The fields of `PositionManager` (tokens.ts:262-265).  Disk persistence
(`saveToDisk`, best-effort and write-only) does not feed back into these
in-memory fields and is modelled separately by `toJSON` / `fromJSON`. -/
structure PMState where
  positions : PositionMap
  stopLossPercent : ℚ
  takeProfitPercent : ℚ
deriving Repr, DecidableEq

/-- `PositionManager.openPosition` (tokens.ts:306-331).  `now` stands for
the `Date.now()` call that stamps `entryTime`. -/
def openPosition (now : ℤ) (tokenAddress tokenSymbol : String)
    (amount entryPrice costBasis : ℚ) (pm : PMState) : PMState × Position :=
  let position : Position :=
    { tokenAddress := tokenAddress
      tokenSymbol := tokenSymbol
      entryPrice := entryPrice
      entryTime := now
      amount := amount
      costBasis := costBasis
      currentPrice := none
      unrealizedPnl := none
      unrealizedPnlPercent := none
      stopLoss := some (entryPrice * (1 - pm.stopLossPercent / 100))
      takeProfit := some (entryPrice * (1 + pm.takeProfitPercent / 100)) }
  ({ pm with positions := mapSet tokenAddress position pm.positions }, position)

/-- `PositionManager.formatHoldTime` (tokens.ts:406-415).  `Math.floor` of a
division is `Int.fdiv`; JS `%` (truncated remainder) is `Int.tmod`. -/
def formatHoldTime (ms : ℤ) : String :=
  let seconds := ms.fdiv 1000
  if seconds < 60 then s!"{seconds}s"
  else
    let minutes := seconds.fdiv 60
    if minutes < 60 then s!"{minutes}m"
    else
      let hours := minutes.fdiv 60
      if hours < 24 then
        let m2 := minutes.tmod 60
        s!"{hours}h {m2}m"
      else
        let days := hours.fdiv 24
        let h2 := hours.tmod 24
        s!"{days}d {h2}h"

structure CloseResult where
  pnlSol : ℚ
  pnlPercent : ℚ
  holdTime : String
deriving Repr, DecidableEq

/-- `PositionManager.closePosition` (tokens.ts:334-356).  The `exitPrice`
parameter is accepted but (as in the source) never used in the computation;
`soldAmount` is the SOL received. -/
def closePosition (now : ℤ) (tokenAddress : String) (exitPrice soldAmount : ℚ)
    (pm : PMState) : PMState × Option CloseResult :=
  match mapGet tokenAddress pm.positions with
  | none => (pm, none)
  | some position =>
    let exitValue := soldAmount
    let pnlSol := exitValue - position.costBasis
    let pnlPercent := pnlSol / position.costBasis * 100
    let holdTime := formatHoldTime (now - position.entryTime)
    ({ pm with positions := mapDelete tokenAddress pm.positions },
     some ⟨pnlSol, pnlPercent, holdTime⟩)

inductive SellReason where
  | stop_loss
  | take_profit
deriving Repr, DecidableEq

structure UpdateResult where
  shouldSell : Bool
  reason : Option SellReason
  position : Option Position
deriving Repr, DecidableEq

/-- The guard `position.stopLoss && currentPrice <= position.stopLoss`
(tokens.ts:372): JS truthiness skips the trigger when `stopLoss` is absent
or `0`. -/
def stopLossTriggered (stopLoss : Option ℚ) (currentPrice : ℚ) : Bool :=
  match stopLoss with
  | none => false
  | some sl => if sl = 0 then false else decide (currentPrice ≤ sl)

/-- The guard `position.takeProfit && currentPrice >= position.takeProfit`
(tokens.ts:378). -/
def takeProfitTriggered (takeProfit : Option ℚ) (currentPrice : ℚ) : Bool :=
  match takeProfit with
  | none => false
  | some tp => if tp = 0 then false else decide (tp ≤ currentPrice)

/-- `PositionManager.updatePrice` (tokens.ts:358-384).  The source mutates
the `Position` object held in the map, then tests stop-loss before
take-profit.  (At `entryPrice = 0` the JS `unrealizedPnlPercent` is
`NaN`/`Infinity` where rational division yields `0`; no theorem below
reads `unrealizedPnlPercent` in that case.) -/
def updatePrice (tokenAddress : String) (currentPrice : ℚ) (pm : PMState) :
    PMState × UpdateResult :=
  match mapGet tokenAddress pm.positions with
  | none => (pm, ⟨false, none, none⟩)
  | some position =>
    let p1 := { position with
      currentPrice := some currentPrice
      unrealizedPnlPercent :=
        some ((currentPrice - position.entryPrice) / position.entryPrice * 100) }
    let pm1 := { pm with positions := mapSet tokenAddress p1 pm.positions }
    if stopLossTriggered p1.stopLoss currentPrice then
      (pm1, ⟨true, some .stop_loss, some p1⟩)
    else if takeProfitTriggered p1.takeProfit currentPrice then
      (pm1, ⟨true, some .take_profit, some p1⟩)
    else
      (pm1, ⟨false, none, some p1⟩)

/-! ## Persistence (tokens.ts:274-299, 417-435)

The persisted document (`data/positions.json`) is `PMDoc`; a missing or
unparsable file is `none`.  `loadFromDisk` runs inside the constructor, so
`fromJSON` — which calls `new PositionManager(...)` — first overlays the
disk file and then the entries of the document it was given.  The JS
truthiness tests `if (parsed.stopLossPercent)` skip a stored `0`. -/

structure PMDoc where
  positions : List (String × Position)
  stopLossPercent : ℚ
  takeProfitPercent : ℚ
deriving Repr, DecidableEq

/-- `PositionManager.toJSON` (tokens.ts:418-424). -/
def toJSON (pm : PMState) : PMDoc :=
  ⟨pm.positions, pm.stopLossPercent, pm.takeProfitPercent⟩

/-- `PositionManager.loadFromDisk` (tokens.ts:274-291).  (`parsed.positions`
is an array, which is truthy in JS even when empty, so the overlay loop
always runs when the file parses.) -/
def loadFromDisk (disk : Option PMDoc) (pm : PMState) : PMState :=
  match disk with
  | none => pm
  | some d =>
    let pm1 := { pm with
      positions := d.positions.foldl (fun ps kv => mapSet kv.1 kv.2 ps) pm.positions }
    let pm2 := if d.stopLossPercent = 0 then pm1
      else { pm1 with stopLossPercent := d.stopLossPercent }
    if d.takeProfitPercent = 0 then pm2
    else { pm2 with takeProfitPercent := d.takeProfitPercent }

/-- The `PositionManager` constructor (tokens.ts:267-271): records the
configured percentages, then calls `loadFromDisk`. -/
def newPositionManager (disk : Option PMDoc) (stopLoss takeProfit : ℚ) : PMState :=
  loadFromDisk disk
    { positions := [], stopLossPercent := stopLoss, takeProfitPercent := takeProfit }

/-- `PositionManager.fromJSON` (tokens.ts:427-435): construct (which loads
the disk file), then overlay the document's entries. -/
def fromJSON (disk : Option PMDoc) (data : PMDoc) : PMState :=
  let pm := newPositionManager disk data.stopLossPercent data.takeProfitPercent
  { pm with
    positions := data.positions.foldl (fun ps kv => mapSet kv.1 kv.2 ps) pm.positions }

/-! ## Swap execution (wallet.ts:351-499)

`SwapNet` is the oracle describing what the chain of network calls inside
`executeSwap` would observe: quote HTTP failure, swap-transaction HTTP
failure, a thrown exception anywhere in the `try`, an on-chain confirmation
error, or a confirmed transaction (with the quote's raw `outAmount` and
`priceImpactPct`). -/

inductive SwapNet where
  | quoteHttpError (err : String)
  | swapHttpError
  | thrown (msg : String)
  | confirmError (err : String) (txHash : String)
  | confirmed (txHash : String) (outAmountRaw : ℤ) (priceImpactPct : ℚ)
deriving Repr, DecidableEq

inductive SwapError where
  | policy (r : DenyReason)
  | walletNotLoaded
  | quoteFailed (s : String)
  | swapRequestFailed
  | txFailed (s : String)
  | thrown (s : String)
deriving Repr, DecidableEq

/-- `TradeResult` (wallet.ts:69-76). -/
structure TradeResult where
  success : Bool
  txHash : Option String
  error : Option SwapError
  inputAmount : ℚ
  outputAmount : Option ℚ
  priceImpact : Option ℚ
deriving Repr, DecidableEq

/-- `parseInt(quoteData.outAmount) / (outputMint === USDC_MINT ? 1e6 :
LAMPORTS_PER_SOL)` (wallet.ts:464). -/
def outScale (outputMint : String) : ℚ :=
  if outputMint = USDC_MINT then 1000000 else LAMPORTS_PER_SOL

/-- `SolanaWallet.executeSwap` (wallet.ts:351-499), mainnet path
(`MOCK_SWAPS = false`).  It re-runs `canTrade` (which may roll the daily
window) and sets `lastTradeTime` only after a confirmed transaction. -/
def executeSwap (now : ℤ) (inputMint outputMint : String) (amountSol : ℚ)
    (net : SwapNet) (w : WalletState) : WalletState × TradeResult :=
  let ct := canTrade now amountSol w
  let w1 := ct.1
  if ct.2.allowed = false then
    (w1, { success := false, txHash := none, error := ct.2.reason.map .policy
           inputAmount := amountSol, outputAmount := none, priceImpact := none })
  else if w1.keypairLoaded = false then
    (w1, { success := false, txHash := none, error := some .walletNotLoaded
           inputAmount := amountSol, outputAmount := none, priceImpact := none })
  else
    match net with
    | .quoteHttpError e =>
      (w1, { success := false, txHash := none, error := some (.quoteFailed e)
             inputAmount := amountSol, outputAmount := none, priceImpact := none })
    | .swapHttpError =>
      (w1, { success := false, txHash := none, error := some .swapRequestFailed
             inputAmount := amountSol, outputAmount := none, priceImpact := none })
    | .thrown msg =>
      (w1, { success := false, txHash := none, error := some (.thrown msg)
             inputAmount := amountSol, outputAmount := none, priceImpact := none })
    | .confirmError err tx =>
      (w1, { success := false, txHash := some tx, error := some (.txFailed err)
             inputAmount := amountSol, outputAmount := none, priceImpact := none })
    | .confirmed tx outRaw impact =>
      ({ w1 with lastTradeTime := now },
       { success := true, txHash := some tx, error := none
         inputAmount := amountSol
         outputAmount := some ((outRaw : ℚ) / outScale outputMint)
         priceImpact := some impact })

/-! ## Trade decision orchestrator
(`TradingToolExecutor.executeTrade`, src/src/tools/trading.ts:1018-1133) -/

/-- The usable part of the DexScreener token-info response
(trading.ts:1059-1074): `data[0].baseToken?.symbol` and `data[0].priceUsd`.
`none` covers a failed fetch, a non-ok response, or an empty array. -/
structure TokenInfoResp where
  symbol : Option String
  priceUsd : Option ℚ
deriving Repr, DecidableEq

/-- One entry appended by `stateManager.recordTrade` (trading.ts:1077-1095).
The locale-formatted `timestamp`/`date` strings are abstracted to the raw
millisecond clock `time` they are rendered from. -/
structure TradeRecord where
  time : ℤ
  token : String
  tokenSymbol : String
  direction : String
  entryPrice : ℚ
  amountSol : ℚ
  txHash : String
deriving Repr, DecidableEq

/-- The state `TradingToolExecutor.executeTrade` can touch: the wallet
(safety gate), the position ledger, and the recorded trade history.
`hasStateManager` models the optional `stateManager` collaborator. -/
structure AgentState where
  wallet : WalletState
  pm : PMState
  hasStateManager : Bool
  tradeHistory : List TradeRecord
deriving Repr, DecidableEq

/-- The semantic payload of the JSON string returned by `executeTrade`. -/
inductive TradeResponse where
  | missingAddress
  | notTradable (reason : Option TradableReason)
  | policyDenied (reason : Option DenyReason)
  | failed (error : Option SwapError)
  | succeeded (txHash : Option String) (inputAmount : ℚ) (outputAmount : Option ℚ)
      (priceImpact : Option ℚ) (position : Option (Option ℚ × Option ℚ))
deriving Repr, DecidableEq

/-- `result.txHash || 'unknown'` (trading.ts:1092). -/
def txHashOrUnknown (h : Option String) : String :=
  match h with
  | none => "unknown"
  | some t => if t = "" then "unknown" else t

/-- `TradingToolExecutor.executeTrade` (trading.ts:1018-1133).
Steps, as in the source: missing-address guard; tradability probe;
`canTrade`; `buyToken`/`sellToken` (both are `executeSwap`, trading.ts
1052-1057 and wallet.ts 537-545); DexScreener symbol/price lookup;
`recordTrade` on success; ledger open (buy) or close (sell) on success;
structured result.  `now` stands for the `Date.now()` calls of this turn. -/
def executeTrade (now : ℤ) (tokenAddress direction : String) (amount : ℚ)
    (probe : Except String ProbeResponse) (net : SwapNet)
    (tokenInfo : Option TokenInfoResp) (st : AgentState) :
    AgentState × TradeResponse :=
  if tokenAddress = "" then (st, .missingAddress)
  else
    let tc := isTokenTradable tokenAddress probe
    if tc.tradable = false then (st, .notTradable tc.reason)
    else
      let ct := canTrade now amount st.wallet
      let st1 := { st with wallet := ct.1 }
      if ct.2.allowed = false then (st1, .policyDenied ct.2.reason)
      else
        let sw :=
          if direction = "buy" then
            executeSwap now SOL_MINT tokenAddress amount net st1.wallet
          else
            executeSwap now tokenAddress SOL_MINT amount net st1.wallet
        let st2 := { st1 with wallet := sw.1 }
        let result := sw.2
        let tokenSymbol :=
          match tokenInfo with
          | some info => info.symbol.getD (tokenAddress.take 6)
          | none => tokenAddress.take 6
        let tokenPrice : ℚ :=
          match tokenInfo with
          | some info => info.priceUsd.getD 0
          | none => 0
        let st3 :=
          if st2.hasStateManager && result.success then
            { st2 with tradeHistory := st2.tradeHistory ++
                [{ time := now, token := tokenAddress, tokenSymbol := tokenSymbol
                   direction := direction, entryPrice := tokenPrice
                   amountSol := amount, txHash := txHashOrUnknown result.txHash }] }
          else st2
        let st4 :=
          if result.success && direction = "buy" then
            { st3 with pm := (openPosition now tokenAddress tokenSymbol
                (result.outputAmount.getD 0) tokenPrice amount st3.pm).1 }
          else if result.success && direction = "sell" then
            { st3 with pm := (closePosition now tokenAddress tokenPrice
                (result.outputAmount.getD 0) st3.pm).1 }
          else st3
        if result.success then
          let posSnap := (mapGet tokenAddress st4.pm.positions).map
            (fun p => (p.stopLoss, p.takeProfit))
          (st4, .succeeded result.txHash result.inputAmount result.outputAmount
            result.priceImpact posSnap)
        else
          (st4, .failed result.error)

/-! ## Opportunity scorer (`calculateScore`, src/src/tools/tokens.ts:1360-1429)

The input is a `Partial<DiscoveredToken>`: numeric fields may be absent
(`Option`), and the source guards each read with `|| default` (JS `||`
also replaces a present `0` by the default — modelled by `jsOr`).  The
social fields are URLs whose truthiness is what the source tests.  Every
adjustment block of the source is transcribed as its own definition and
`calculateScore` folds them over the base score of 50, clamping at the
end as `Math.min(100, Math.max(0, score))`. -/

structure TokenStats where
  volume24h : Option ℚ
  liquidity : Option ℚ
  txnsBuys : Option ℕ
  txnsSells : Option ℕ
  priceChange24h : Option ℚ
  marketCap : Option ℚ
  boostAmount : Option ℚ
  socialTwitter : Bool
  socialTelegram : Bool
  socialWebsite : Bool
deriving Repr, DecidableEq

/-- JS `x || d` on an optional number: absent or `0` gives the default. -/
def jsOr (x : Option ℚ) (d : ℚ) : ℚ :=
  match x with
  | none => d
  | some v => if v = 0 then d else v

/-- JS `x || 0` on an optional count. -/
def jsOrNat (x : Option ℕ) : ℕ := x.getD 0

/-- tokens.ts:1363-1370: the volume/liquidity-ratio block. -/
def volLiqAdjustment (t : TokenStats) : ℤ :=
  let volLiqRatio := jsOr t.volume24h 0 / max (jsOr t.liquidity 1) 1
  if 10 < volLiqRatio then -15
  else if 3 < volLiqRatio then 15
  else if (3/2 : ℚ) < volLiqRatio then 10
  else if (1/2 : ℚ) < volLiqRatio then 5
  else -5

/-- tokens.ts:1372-1382: the buy/sell-ratio block. -/
def buyRatioAdjustment (t : TokenStats) : ℤ :=
  let buys := jsOrNat t.txnsBuys
  let sells := jsOrNat t.txnsSells
  let totalTxns := buys + sells
  let buyRatio : ℚ := (buys : ℚ) / max (totalTxns : ℚ) 1
  if (13/20 : ℚ) < buyRatio then 15
  else if (11/20 : ℚ) < buyRatio then 10
  else if (9/20 : ℚ) < buyRatio then 0
  else if buyRatio < (7/20 : ℚ) then -20
  else -10

/-- tokens.ts:1384-1391: the 24h price-change block.  Note the source's
chain leaves changes in `[-30, -10]` with no adjustment: after `change >
-10` fails, it tests `change < -50` and then `change < -30`. -/
def priceChangeAdjustment (change : ℚ) : ℤ :=
  if 200 < change then -10
  else if 50 < change then 5
  else if 10 < change then 10
  else if -10 < change then 5
  else if change < -50 then -25
  else if change < -30 then -15
  else 0

/-- tokens.ts:1393-1399: the liquidity-tier block. -/
def liquidityAdjustment (t : TokenStats) : ℤ :=
  let liq := jsOr t.liquidity 0
  if 500000 < liq then 20
  else if 200000 < liq then 15
  else if 100000 < liq then 10
  else if 50000 < liq then 5
  else if 20000 < liq then 0
  else -10

/-- tokens.ts:1401-1404: the volume-tier block. -/
def volumeAdjustment (t : TokenStats) : ℤ :=
  let vol := jsOr t.volume24h 0
  if 500000 < vol then 15
  else if 200000 < vol then 10
  else if 100000 < vol then 5
  else 0

/-- tokens.ts:1406-1409: the market-cap block. -/
def marketCapAdjustment (t : TokenStats) : ℤ :=
  let mcap := jsOr t.marketCap 0
  if 0 < mcap ∧ mcap < 50000 then -20
  else if 10000000 < mcap then 10
  else 0

/-- tokens.ts:1411-1414: the transaction-count block. -/
def txnCountAdjustment (t : TokenStats) : ℤ :=
  let totalTxns := jsOrNat t.txnsBuys + jsOrNat t.txnsSells
  if 1000 < totalTxns then 10
  else if 500 < totalTxns then 5
  else if totalTxns < 100 then -15
  else 0

/-- tokens.ts:1416-1418: the boost block. -/
def boostAdjustment (t : TokenStats) : ℤ :=
  let boost := jsOr t.boostAmount 0
  if 500 < boost then 3
  else if 100 < boost then 2
  else 0

/-- tokens.ts:1420-1426: the socials block. -/
def socialAdjustment (t : TokenStats) : ℤ :=
  if t.socialTwitter && t.socialWebsite then 15
  else if t.socialTwitter then 10
  else if t.socialTelegram then 5
  else if t.socialWebsite then 5
  else -25

/-- `calculateScore` (tokens.ts:1360-1429): base 50, each block's
adjustment added in order, result clamped to `[0, 100]`. -/
def calculateScore (t : TokenStats) : ℤ :=
  let score : ℤ := 50
  let score := score + volLiqAdjustment t
  let score := score + buyRatioAdjustment t
  let score := score + priceChangeAdjustment (jsOr t.priceChange24h 0)
  let score := score + liquidityAdjustment t
  let score := score + volumeAdjustment t
  let score := score + marketCapAdjustment t
  let score := score + txnCountAdjustment t
  let score := score + boostAdjustment t
  let score := score + socialAdjustment t
  min 100 (max 0 score)

/-! ## Auxiliary definitions used by the statements below -/

/-- The keys of the position map. -/
def mapKeys (ps : PositionMap) : List String := ps.map Prod.fst

/-- The failure-shaped responses of `executeTrade` (everything except a
missing address and a success). -/
def isFailureResponse : TradeResponse → Bool
  | .notTradable _ => true
  | .policyDenied _ => true
  | .failed _ => true
  | _ => false

/-- Discriminator for a success-shaped `executeTrade` response. -/
def isSucceeded : TradeResponse → Bool
  | .succeeded _ _ _ _ _ => true
  | _ => false

/-- A buy-decision scenario in which the ledger already holds
`DEFAULT_CONFIG.maxPositions = 2` open positions and every probe/policy
check passes. -/
def C1_start : AgentState :=
  ⟨⟨true, DEFAULT_CONFIG, 0, 0, 50000⟩,
   ⟨[("A", ⟨"A", "A", 1, 0, 1, 1, none, none, none, some 1, some 2⟩),
     ("B", ⟨"B", "B", 1, 0, 1, 1, none, none, none, some 1, some 2⟩)], 15, 50⟩,
   false, []⟩

/-- A sell-decision scenario: one open position bought for 5 SOL, sold for
proceeds of 2 SOL (a realized loss of 3 SOL), with every check passing and
the swap confirming. -/
def C3_start : AgentState :=
  ⟨⟨true, ⟨1, 2, 20, 1, 60000⟩, 0, 0, 50000⟩,
   ⟨[("TOK1", ⟨"TOK1", "TOK", 1, 0, 100, 5, none, none, none, some 1, some 2⟩)],
     15, 50⟩,
   false, []⟩

/-! ## Association-list (JS `Map`) lemmas -/

theorem mapGet_mapSet_self (k : String) (v : Position) (ps : PositionMap) :
    mapGet k (mapSet k v ps) = some v := by
  induction ps with
  | nil => simp [mapSet, mapGet]
  | cons hd tl ih =>
    obtain ⟨k1, v1⟩ := hd
    by_cases h : k1 = k
    · simp [mapSet, mapGet, h]
    · simp [mapSet, mapGet, h, ih]

theorem mapSet_of_not_mem (k : String) (v : Position) (ps : PositionMap)
    (h : k ∉ mapKeys ps) : mapSet k v ps = ps ++ [(k, v)] := by
  induction ps with
  | nil => simp [mapSet]
  | cons hd tl ih =>
    obtain ⟨k1, v1⟩ := hd
    simp only [mapKeys, List.map_cons, List.mem_cons] at h
    push_neg at h
    have hne : ¬k1 = k := fun hc => h.1 hc.symm
    simp [mapSet, hne, ih (by simpa [mapKeys] using h.2)]

theorem mapKeys_mapSet_of_mem (k : String) (v : Position) (ps : PositionMap)
    (h : k ∈ mapKeys ps) : mapKeys (mapSet k v ps) = mapKeys ps := by
  induction ps with
  | nil => simp [mapKeys] at h
  | cons hd tl ih =>
    obtain ⟨k1, v1⟩ := hd
    by_cases hk : k1 = k
    · simp [mapSet, mapKeys, hk]
    · simp only [mapKeys, List.map_cons, List.mem_cons] at h
      rcases h with h | h
      · exact absurd h.symm hk
      · simpa [mapSet, mapKeys, hk] using ih (by simpa [mapKeys] using h)

theorem length_mapSet_of_mem (k : String) (v : Position) (ps : PositionMap)
    (h : k ∈ mapKeys ps) : (mapSet k v ps).length = ps.length := by
  induction ps with
  | nil => simp [mapKeys] at h
  | cons hd tl ih =>
    obtain ⟨k1, v1⟩ := hd
    by_cases hk : k1 = k
    · simp [mapSet, hk]
    · simp only [mapKeys, List.map_cons, List.mem_cons] at h
      rcases h with h | h
      · exact absurd h.symm hk
      · simpa [mapSet, hk] using ih (by simpa [mapKeys] using h)

theorem nodup_mapKeys_mapSet (k : String) (v : Position) (ps : PositionMap)
    (h : (mapKeys ps).Nodup) : (mapKeys (mapSet k v ps)).Nodup := by
  by_cases hm : k ∈ mapKeys ps
  · rwa [mapKeys_mapSet_of_mem k v ps hm]
  · rw [mapSet_of_not_mem k v ps hm]
    simpa [mapKeys] using List.Nodup.append h (by simp) (by
      intro a ha hb
      simp at hb
      exact hm (hb ▸ (by simpa [mapKeys] using ha)))

theorem mapDelete_sublist (k : String) (ps : PositionMap) :
    (mapDelete k ps).Sublist ps := by
  induction ps with
  | nil => simp [mapDelete]
  | cons hd tl ih =>
    obtain ⟨k1, v1⟩ := hd
    by_cases hk : k1 = k
    · simpa [mapDelete, hk] using List.sublist_cons_self (k1, v1) tl
    · simpa [mapDelete, hk] using List.Sublist.cons₂ (k1, v1) ih

theorem nodup_mapKeys_mapDelete (k : String) (ps : PositionMap)
    (h : (mapKeys ps).Nodup) : (mapKeys (mapDelete k ps)).Nodup :=
  List.Nodup.sublist (List.Sublist.map Prod.fst (mapDelete_sublist k ps)) h

theorem foldl_mapSet_append (l acc : PositionMap)
    (hl : (mapKeys l).Nodup) (hd : ∀ k ∈ mapKeys l, k ∉ mapKeys acc) :
    l.foldl (fun ps kv => mapSet kv.1 kv.2 ps) acc = acc ++ l := by
  induction l generalizing acc with
  | nil => simp
  | cons hd1 tl ih =>
    obtain ⟨k, v⟩ := hd1
    simp only [List.foldl_cons]
    rw [mapSet_of_not_mem k v acc (hd k (by simp [mapKeys]))]
    rw [ih (acc ++ [(k, v)])
      (by simpa [mapKeys] using hl.of_cons)
      (by
        intro k1 hk1
        simp only [mapKeys, List.map_append] at *
        simp only [List.mem_append, List.map_cons, List.map_nil, List.mem_singleton]
        push_neg
        refine ⟨hd k1 (by simp [mapKeys, hk1]), ?_⟩
        intro hcontra
        simp only [mapKeys, List.map_cons, List.nodup_cons] at hl
        exact hl.1 (hcontra ▸ hk1))]
    simp

/-! ## Claims about the position ledger -/

/-- C10: `updatePrice` at an address with no open position returns
`{ shouldSell: false }` with no reason and no position snapshot, and leaves
the ledger state (every stored position included) unchanged
(tokens.ts:364-365). -/
theorem C10_updatePrice_unknown_address (pm : PMState) (addr : String) (cp : ℚ)
    (h : mapGet addr pm.positions = none) :
    updatePrice addr cp pm = (pm, ⟨false, none, none⟩) := by
  simp [updatePrice, h]

theorem C10_updatePrice_unknown_address_witness :
    mapGet "nope" (⟨[("addr", ⟨"addr", "TEST", 1, 0, 100, 1, none, none, none,
        some 1, some 2⟩)], 15, 50⟩ : PMState).positions = none ∧
    updatePrice "nope" 7 ⟨[("addr", ⟨"addr", "TEST", 1, 0, 100, 1, none, none, none,
        some 1, some 2⟩)], 15, 50⟩ =
      (⟨[("addr", ⟨"addr", "TEST", 1, 0, 100, 1, none, none, none,
        some 1, some 2⟩)], 15, 50⟩, ⟨false, none, none⟩) := by
  refine ⟨by decide, C10_updatePrice_unknown_address _ _ _ (by decide)⟩

/-- C8: every ledger operation (`openPosition`, `updatePrice`,
`closePosition`) preserves the at-most-one-position-per-address invariant
(no duplicate keys), and `openPosition` at an address that already holds a
position replaces it: the new position is what `mapGet` returns and the
number of entries does not grow. -/
theorem C8_ledger_at_most_one_per_address (now : ℤ) (addr sym : String)
    (amt ep cb exitP sold cp : ℚ) (pm : PMState)
    (h : (mapKeys pm.positions).Nodup) :
    (mapKeys ((openPosition now addr sym amt ep cb pm).1.positions)).Nodup ∧
    (mapKeys ((updatePrice addr cp pm).1.positions)).Nodup ∧
    (mapKeys ((closePosition now addr exitP sold pm).1.positions)).Nodup ∧
    mapGet addr ((openPosition now addr sym amt ep cb pm).1.positions) =
      some (openPosition now addr sym amt ep cb pm).2 ∧
    (addr ∈ mapKeys pm.positions →
      ((openPosition now addr sym amt ep cb pm).1.positions).length =
        pm.positions.length) := by
  refine ⟨?_, ?_, ?_, ?_, ?_⟩
  · simpa [openPosition] using nodup_mapKeys_mapSet addr _ pm.positions h
  · rcases hg : mapGet addr pm.positions with _ | p
    · simpa [updatePrice, hg] using h
    · simp only [updatePrice, hg]
      split_ifs <;> simpa using nodup_mapKeys_mapSet addr _ pm.positions h
  · rcases hg : mapGet addr pm.positions with _ | p
    · simpa [closePosition, hg] using h
    · simpa [closePosition, hg] using nodup_mapKeys_mapDelete addr pm.positions h
  · simpa [openPosition] using mapGet_mapSet_self addr _ pm.positions
  · intro hmem
    simpa [openPosition] using length_mapSet_of_mem addr _ pm.positions hmem

theorem C8_ledger_at_most_one_per_address_witness :
    (mapKeys (⟨[("a", ⟨"a", "A", 1, 0, 1, 1, none, none, none, some 1, some 2⟩)],
        15, 50⟩ : PMState).positions).Nodup ∧
    ("a" ∈ mapKeys (⟨[("a", ⟨"a", "A", 1, 0, 1, 1, none, none, none, some 1, some 2⟩)],
        15, 50⟩ : PMState).positions →
      ((openPosition 5 "a" "A2" 3 2 1
          ⟨[("a", ⟨"a", "A", 1, 0, 1, 1, none, none, none, some 1, some 2⟩)], 15, 50⟩
        ).1.positions).length =
        (⟨[("a", ⟨"a", "A", 1, 0, 1, 1, none, none, none, some 1, some 2⟩)],
          15, 50⟩ : PMState).positions.length) :=
  ⟨by decide,
   (C8_ledger_at_most_one_per_address 5 "a" "A2" 3 2 1 0 0 0 _ (by decide)).2.2.2.2⟩

/-- C9 counterexample: serialize-then-deserialize is NOT the identity on
positions, because `fromJSON` runs the constructor, whose `loadFromDisk`
overlays whatever `data/positions.json` currently holds.  With an empty
ledger serialized but a stale position on disk, the deserialized ledger
contains the stale position. -/
theorem C9_roundtrip_counterexample :
    (fromJSON
        (some ⟨[("X", ⟨"X", "STALE", 2, 0, 10, 1, none, none, none, some 1, some 3⟩)],
          15, 50⟩)
        (toJSON ⟨[], 15, 50⟩)).positions ≠
      (⟨[], 15, 50⟩ : PMState).positions := by
  decide

/-- C9 amended: when no persisted positions file is present (or it is
unreadable), `fromJSON (toJSON pm)` reproduces the ledger exactly —
identical position set and the same configured stop-loss/take-profit
percentages. -/
theorem C9_roundtrip_no_disk (pm : PMState)
    (h : (mapKeys pm.positions).Nodup) :
    fromJSON none (toJSON pm) = pm := by
  have hfold := foldl_mapSet_append pm.positions [] h (by simp [mapKeys])
  simp only [fromJSON, newPositionManager, loadFromDisk, toJSON] at *
  simp [hfold]

theorem C9_roundtrip_no_disk_witness :
    fromJSON none (toJSON
        ⟨[("a", ⟨"a", "A", 1, 0, 1, 1, none, none, none, some 1, some 2⟩),
          ("b", ⟨"b", "B", 2, 0, 1, 1, none, none, none, some 1, some 3⟩)], 15, 50⟩) =
      ⟨[("a", ⟨"a", "A", 1, 0, 1, 1, none, none, none, some 1, some 2⟩),
        ("b", ⟨"b", "B", 2, 0, 1, 1, none, none, none, some 1, some 3⟩)], 15, 50⟩ :=
  C9_roundtrip_no_disk _ (by decide)

/-- C6 counterexample: a position opened with `stopLossPercent = 100` has
`stopLoss = 0`; at `currentPrice = 0` the claimed trigger condition
`currentPrice ≤ stopLoss` holds, yet `updatePrice` reports
`shouldSell = false`, because the JS guard
`position.stopLoss && currentPrice <= position.stopLoss` treats the
threshold `0` as falsy and skips the check (tokens.ts:372). -/
theorem C6_stop_loss_counterexample :
    ((openPosition 0 "addr" "TEST" 100 1 1 ⟨[], 100, 50⟩).2).stopLoss = some 0 ∧
    ((0 : ℚ) ≤ 0) ∧
    (updatePrice "addr" 0
        (openPosition 0 "addr" "TEST" 100 1 1 ⟨[], 100, 50⟩).1).2.shouldSell = false := by
  refine ⟨?_, le_refl 0, ?_⟩
  · norm_num [openPosition]
  · norm_num [openPosition, updatePrice, mapSet, mapGet, stopLossTriggered,
      takeProfitTriggered]

/-- C6 amended: for a position whose thresholds are present and non-zero,
`updatePrice` triggers `stop_loss` whenever `currentPrice ≤ stopLoss` and
`take_profit` whenever `currentPrice ≥ takeProfit` (the latter only when
the stop-loss guard did not fire), and the stop-loss check runs first, so
when both conditions hold simultaneously the reported reason is
`stop_loss`. -/
theorem C6_exit_triggers (pm : PMState) (addr : String) (cp : ℚ) (p : Position)
    (hp : mapGet addr pm.positions = some p) :
    (∀ sl, p.stopLoss = some sl → sl ≠ 0 → cp ≤ sl →
      (updatePrice addr cp pm).2.shouldSell = true ∧
      (updatePrice addr cp pm).2.reason = some SellReason.stop_loss) ∧
    (∀ tp, p.takeProfit = some tp → tp ≠ 0 → tp ≤ cp →
      (∀ sl, p.stopLoss = some sl → sl ≠ 0 → sl < cp) →
      (updatePrice addr cp pm).2.shouldSell = true ∧
      (updatePrice addr cp pm).2.reason = some SellReason.take_profit) ∧
    (∀ sl tp, p.stopLoss = some sl → sl ≠ 0 → cp ≤ sl →
      p.takeProfit = some tp → tp ≠ 0 → tp ≤ cp →
      (updatePrice addr cp pm).2.reason = some SellReason.stop_loss) := by
  refine ⟨?_, ?_, ?_⟩
  · intro sl hsl hne hle
    simp [updatePrice, hp, stopLossTriggered, hsl, hne, hle]
  · intro tp htp hne hge hsl
    have hslf : stopLossTriggered p.stopLoss cp = false := by
      rcases hs : p.stopLoss with _ | sl
      · simp [stopLossTriggered]
      · by_cases h0 : sl = 0
        · simp [stopLossTriggered, h0]
        · simp [stopLossTriggered, h0, not_le.mpr (hsl sl hs h0)]
    simp [updatePrice, hp, hslf, takeProfitTriggered, htp, hne, hge]
  · intro sl tp hsl hslne hle htp htpne hge
    simp [updatePrice, hp, stopLossTriggered, hsl, hslne, hle]

theorem C6_exit_triggers_witness :
    mapGet "a" (⟨[("a", ⟨"a", "A", 4, 0, 1, 1, none, none, none, some 3, some 6⟩)],
        15, 50⟩ : PMState).positions =
      some ⟨"a", "A", 4, 0, 1, 1, none, none, none, some 3, some 6⟩ ∧
    (updatePrice "a" 2
        ⟨[("a", ⟨"a", "A", 4, 0, 1, 1, none, none, none, some 3, some 6⟩)],
          15, 50⟩).2.shouldSell = true ∧
    (updatePrice "a" 2
        ⟨[("a", ⟨"a", "A", 4, 0, 1, 1, none, none, none, some 3, some 6⟩)],
          15, 50⟩).2.reason = some SellReason.stop_loss := by
  have h := (C6_exit_triggers
      ⟨[("a", ⟨"a", "A", 4, 0, 1, 1, none, none, none, some 3, some 6⟩)], 15, 50⟩
      "a" 2 ⟨"a", "A", 4, 0, 1, 1, none, none, none, some 3, some 6⟩ (by decide)).1
      3 rfl (by norm_num) (by norm_num)
  exact ⟨by decide, h.1, h.2⟩

/-! ## Claims about the opportunity scorer -/

/-- C7 counterexample: the 24h price-change signal contributes `0` (not
`−15`) for a change of `−20` (inside `−30..−10`), and `−15` (not `−25`)
for a change of `−40` (below `−30`): the source only subtracts 25 below
`−50` and 15 in `−50..−30`, and adds nothing in `[−30, −10]`
(tokens.ts:1384-1391). -/
theorem C7_price_change_counterexample :
    priceChangeAdjustment (-20) = 0 ∧ priceChangeAdjustment (-20) ≠ -15 ∧
    priceChangeAdjustment (-40) = -15 ∧ priceChangeAdjustment (-40) ≠ -25 := by
  norm_num [priceChangeAdjustment]

/-- C7 amended: the 24h price-change signal of `calculateScore` contributes
`0` for changes in `[−30, −10]`, `−15` for changes in `[−50, −30)`, and
`−25` for changes below `−50`. -/
theorem C7_price_change_bands (c : ℚ) :
    ((-30 : ℚ) ≤ c → c ≤ -10 → priceChangeAdjustment c = 0) ∧
    ((-50 : ℚ) ≤ c → c < -30 → priceChangeAdjustment c = -15) ∧
    (c < (-50 : ℚ) → priceChangeAdjustment c = -25) := by
  refine ⟨fun h1 h2 => ?_, fun h1 h2 => ?_, fun h1 => ?_⟩ <;>
    simp only [priceChangeAdjustment] <;> split_ifs <;> first | rfl | linarith

theorem C7_price_change_bands_witness :
    ((-30 : ℚ) ≤ -20 ∧ (-20 : ℚ) ≤ -10 ∧ priceChangeAdjustment (-20) = 0) ∧
    ((-50 : ℚ) ≤ -40 ∧ (-40 : ℚ) < -30 ∧ priceChangeAdjustment (-40) = -15) ∧
    ((-60 : ℚ) < -50 ∧ priceChangeAdjustment (-60) = -25) :=
  ⟨⟨by norm_num, by norm_num,
      (C7_price_change_bands (-20)).1 (by norm_num) (by norm_num)⟩,
   ⟨by norm_num, by norm_num,
      (C7_price_change_bands (-40)).2.1 (by norm_num) (by norm_num)⟩,
   ⟨by norm_num, (C7_price_change_bands (-60)).2.2 (by norm_num)⟩⟩

/-! ## Claims about the trade safety gate -/

/-- C5: with `dailyLossLimit = 1` and `dailyPnl = 0`, two
`updateDailyPnl (-0.6)` calls (the spec's `recordOutcome`) drive
`dailyPnl` to `-1.2 < -1`, so the next `canTrade` denies — for a loaded
wallet, an amount within `maxTradeSize`, and a daily window that has not
exceeded 24h (so the lazy roll does not erase the loss).  The denial is by
the daily-loss check, or earlier by the cooldown check if one is active;
either way `allowed = false`. -/
theorem C5_two_losses_deny (now : ℤ) (amount : ℚ) (w : WalletState)
    (hk : w.keypairLoaded = true)
    (hamt : amount ≤ w.config.maxTradeSize)
    (hlimit : w.config.dailyLossLimit = 1)
    (hpnl : w.dailyPnl = 0)
    (hwin : now - w.dailyPnlResetTime ≤ dayMs) :
    (canTrade now amount
        (updateDailyPnl (-(3/5)) (updateDailyPnl (-(3/5)) w))).2.allowed = false := by
  by_cases hcool : now - w.lastTradeTime < w.config.cooldownMs
  · simp [canTrade, updateDailyPnl, hk, not_lt.mpr hamt, hcool]
  · have hroll : ¬dayMs < now - w.dailyPnlResetTime := not_lt.mpr hwin
    simp [canTrade, updateDailyPnl, hk, not_lt.mpr hamt, hcool, hroll, hpnl, hlimit]
    norm_num

theorem C5_two_losses_deny_witness :
    (⟨true, ⟨1, 2, 20, 1, 60000⟩, 0, 0, 0⟩ : WalletState).keypairLoaded = true ∧
    (1 : ℚ) ≤ (⟨true, ⟨1, 2, 20, 1, 60000⟩, 0, 0, 0⟩ : WalletState).config.maxTradeSize ∧
    (canTrade 0 1
        (updateDailyPnl (-(3/5)) (updateDailyPnl (-(3/5))
          ⟨true, ⟨1, 2, 20, 1, 60000⟩, 0, 0, 0⟩))).2.allowed = false :=
  ⟨rfl, le_refl 1,
   C5_two_losses_deny 0 1 _ rfl (le_refl 1) rfl rfl (by norm_num [dayMs])⟩

/-- C4 counterexample: for a non-pump.fun mint, a thrown probe fetch yields
`tradable = true` with NO reason (wallet.ts:272-274, "Assume tradable if we
can't check") — the claim requires `tradable = false` with a diagnostic —
and an HTTP-ok probe response that carries an error payload and no route
also yields `tradable = true` (the non-pump branch never inspects
`data.error`/`data.routePlan`), violating the claimed iff. -/
theorem C4_probe_counterexample :
    (isTokenTradable "TOKEN123" (.error "fetch failed")).tradable = true ∧
    (isTokenTradable "TOKEN123" (.error "fetch failed")).reason = none ∧
    (isTokenTradable "TOKEN123" (.ok ⟨true, true, none⟩)).tradable = true := by
  decide

/-- C4 amended: for mints ending in "pump" (case-insensitively) the claim
holds: tradable iff the probe response is HTTP-ok, has no error payload and
has a non-empty route plan, and a thrown fetch gives `tradable = false`
with a diagnostic reason.  For all other mints, tradable iff the probe
response is HTTP-ok or the fetch threw, and a thrown fetch gives
`tradable = true` with no reason.  In every case the result is a value
(no exception propagates), and whenever `tradable = false` a diagnostic
reason is attached. -/
theorem C4_tradability_characterization (mint : String)
    (probe : Except String ProbeResponse) :
    (endsWithPump mint = true →
      (((isTokenTradable mint probe).tradable = true) ↔
        (∃ r, probe = .ok r ∧ r.ok = true ∧ r.hasError = false ∧
          ∃ routes, r.routePlan = some routes ∧ routes ≠ []))) ∧
    (endsWithPump mint = false →
      (((isTokenTradable mint probe).tradable = true) ↔
        ((∃ e, probe = .error e) ∨ ∃ r, probe = .ok r ∧ r.ok = true))) ∧
    (∀ e, probe = .error e →
      isTokenTradable mint probe =
        if endsWithPump mint then ⟨false, some (.quoteFailed e)⟩
        else ⟨true, none⟩) ∧
    ((isTokenTradable mint probe).tradable = false →
      (isTokenTradable mint probe).reason ≠ none) := by
  rcases probe with e | r
  · by_cases hp : endsWithPump mint <;> simp [isTokenTradable, hp]
  · obtain ⟨rok, rerr, rplan⟩ := r
    by_cases hp : endsWithPump mint <;>
      cases rok <;> cases rerr <;>
        rcases rplan with _ | ⟨_ | ⟨rt, rts⟩⟩ <;>
          simp [isTokenTradable, hp]

theorem C4_tradability_characterization_witness :
    isTokenTradable "abcpump" (.error "boom") =
      ⟨false, some (.quoteFailed "boom")⟩ ∧
    isTokenTradable "TOKEN123" (.error "boom") = ⟨true, none⟩ := by
  have h1 := (C4_tradability_characterization "abcpump" (.error "boom")).2.2.1 "boom" rfl
  have h2 := (C4_tradability_characterization "TOKEN123" (.error "boom")).2.2.1 "boom" rfl
  rw [if_pos (by decide : endsWithPump "abcpump" = true)] at h1
  rw [if_neg (by decide : ¬endsWithPump "TOKEN123" = true)] at h2
  exact ⟨h1, h2⟩

/-! ## Orchestrator lemmas -/

/-- `canTrade` either returns the wallet unchanged or (when the daily
window is stale and the first three checks pass) rolls the window. -/
theorem canTrade_fst (now : ℤ) (amt : ℚ) (w : WalletState) :
    (canTrade now amt w).1 = w ∨
      (dayMs < now - w.dailyPnlResetTime ∧
       (canTrade now amt w).1 = { w with dailyPnl := 0, dailyPnlResetTime := now }) := by
  simp only [canTrade]
  split_ifs <;> simp_all

/-- Re-running `canTrade` on the state it returned, with the same clock,
is a no-op that still allows: the window cannot roll twice at one
instant. -/
theorem canTrade_allowed_again (now : ℤ) (amt : ℚ) (w : WalletState)
    (h : (canTrade now amt w).2.allowed = true) :
    canTrade now amt ((canTrade now amt w).1) = ((canTrade now amt w).1, ⟨true, none⟩) := by
  by_cases hk : w.keypairLoaded = false
  · simp [canTrade, hk] at h
  · by_cases hsize : w.config.maxTradeSize < amt
    · simp [canTrade, hk, hsize] at h
    · by_cases hcool : now - w.lastTradeTime < w.config.cooldownMs
      · simp [canTrade, hk, hsize, hcool] at h
      · by_cases hr : dayMs < now - w.dailyPnlResetTime
        · by_cases hd : (0 : ℚ) < -w.config.dailyLossLimit
          · simp [canTrade, hk, hsize, hcool, hr, hd] at h
          · have hday : ¬dayMs < (0 : ℤ) := by norm_num [dayMs]
            simp [canTrade, hk, hsize, hcool, hr, hd, hday]
        · by_cases hd : w.dailyPnl < -w.config.dailyLossLimit
          · simp [canTrade, hk, hsize, hcool, hr, hd] at h
          · simp [canTrade, hk, hsize, hcool, hr, hd]

/-- On every failing branch, `executeSwap` returns the state produced by
its internal `canTrade` call, with `lastTradeTime` untouched. -/
theorem executeSwap_fail_fst (now : ℤ) (im om : String) (amt : ℚ) (net : SwapNet)
    (w : WalletState) (h : (executeSwap now im om amt net w).2.success = false) :
    (executeSwap now im om amt net w).1 = (canTrade now amt w).1 := by
  simp only [executeSwap] at h ⊢
  split_ifs at h ⊢ <;> try rfl
  cases net <;> simp_all

/-- C2 counterexample: when the daily window is stale, the `canTrade` call
inside the decision flow rolls it (`dailyPnl := 0`,
`dailyPnlResetTime := now`) even though the subsequent execution fails, so
the safety state is NOT exactly as before the decision.  Concretely: a
wallet with `dailyPnl = -1/2` and a window started at `0`, probed at
`now = 2*dayMs`, with the swap quote request failing. -/
theorem C2_stale_window_counterexample :
    isFailureResponse
      (executeTrade (2 * dayMs) "TOKEN123" "buy" 1 (.ok ⟨true, false, some [()]⟩)
        (.quoteHttpError "500")
        (some ⟨some "TOK", some 3⟩)
        ⟨⟨true, ⟨1, 2, 20, 1, 60000⟩, 0, -(1/2), 0⟩, ⟨[], 15, 50⟩, true, []⟩).2 = true ∧
    (executeTrade (2 * dayMs) "TOKEN123" "buy" 1 (.ok ⟨true, false, some [()]⟩)
        (.quoteHttpError "500")
        (some ⟨some "TOK", some 3⟩)
        ⟨⟨true, ⟨1, 2, 20, 1, 60000⟩, 0, -(1/2), 0⟩, ⟨[], 15, 50⟩, true, []⟩).1.wallet.dailyPnl
      ≠ -(1/2) := by
  have hpump : endsWithPump "TOKEN123" = false := by decide
  have hne : ("TOKEN123" : String) ≠ "" := by decide
  constructor <;>
    norm_num [executeTrade, isTokenTradable, hpump, hne, canTrade, executeSwap,
      isFailureResponse, dayMs]

/-- C2 amended: whenever the decision flow returns a failure (not
tradable, policy denied, or execution failed), the position ledger, the
recorded trade history and `lastTradeTime` are exactly as before, and the
wallet safety state is either exactly as before or — only when the daily
window was stale — lazily rolled by `canTrade` (`dailyPnl := 0`,
`dailyPnlResetTime := now`).  When the window is fresh, nothing at all
changes. -/
theorem C2_no_mutation_on_failure (now : ℤ) (addr direction : String) (amount : ℚ)
    (probe : Except String ProbeResponse) (net : SwapNet) (info : Option TokenInfoResp)
    (st : AgentState)
    (h : isFailureResponse
      (executeTrade now addr direction amount probe net info st).2 = true) :
    (executeTrade now addr direction amount probe net info st).1.pm = st.pm ∧
    (executeTrade now addr direction amount probe net info st).1.tradeHistory =
      st.tradeHistory ∧
    (executeTrade now addr direction amount probe net info st).1.wallet.lastTradeTime =
      st.wallet.lastTradeTime ∧
    ((executeTrade now addr direction amount probe net info st).1.wallet = st.wallet ∨
      (dayMs < now - st.wallet.dailyPnlResetTime ∧
       (executeTrade now addr direction amount probe net info st).1.wallet =
         { st.wallet with dailyPnl := 0, dailyPnlResetTime := now })) := by
  by_cases ha : addr = ""
  · simp [executeTrade, ha, isFailureResponse] at h
  · by_cases ht : (isTokenTradable addr probe).tradable = false
    · simp [executeTrade, ha, ht]
    · by_cases hc : (canTrade now amount st.wallet).2.allowed = false
      · have hmain : executeTrade now addr direction amount probe net info st =
            ({ st with wallet := (canTrade now amount st.wallet).1 },
             .policyDenied (canTrade now amount st.wallet).2.reason) := by
          simp [executeTrade, ha, ht, hc]
        refine ⟨by rw [hmain], by rw [hmain], ?_, ?_⟩
        · rw [hmain]
          rcases canTrade_fst now amount st.wallet with h1 | ⟨_, h1⟩ <;> simp [h1]
        · rw [hmain]
          simpa using canTrade_fst now amount st.wallet
      · have hallow : (canTrade now amount st.wallet).2.allowed = true := by
          simpa using hc
        have hagain := canTrade_allowed_again now amount st.wallet hallow
        by_cases hdir : direction = "buy"
        · by_cases hs : (executeSwap now SOL_MINT addr amount net
              (canTrade now amount st.wallet).1).2.success = true
          · simp [executeTrade, ha, ht, hc, hdir, hs, isFailureResponse] at h
          · have hs' : (executeSwap now SOL_MINT addr amount net
                (canTrade now amount st.wallet).1).2.success = false := by
              simpa using hs
            have hsw : (executeSwap now SOL_MINT addr amount net
                  (canTrade now amount st.wallet).1).1 =
                (canTrade now amount st.wallet).1 := by
              rw [executeSwap_fail_fst now SOL_MINT addr amount net _ hs', hagain]
            have hmain : executeTrade now addr direction amount probe net info st =
                ({ st with wallet := (canTrade now amount st.wallet).1 },
                 .failed (executeSwap now SOL_MINT addr amount net
                    (canTrade now amount st.wallet).1).2.error) := by
              simp [executeTrade, ha, ht, hc, hdir, hs', hsw]
            refine ⟨by rw [hmain], by rw [hmain], ?_, ?_⟩
            · rw [hmain]
              rcases canTrade_fst now amount st.wallet with h1 | ⟨_, h1⟩ <;> simp [h1]
            · rw [hmain]
              simpa using canTrade_fst now amount st.wallet
        · by_cases hs : (executeSwap now addr SOL_MINT amount net
              (canTrade now amount st.wallet).1).2.success = true
          · simp [executeTrade, ha, ht, hc, hdir, hs, isFailureResponse] at h
          · have hs' : (executeSwap now addr SOL_MINT amount net
                (canTrade now amount st.wallet).1).2.success = false := by
              simpa using hs
            have hsw : (executeSwap now addr SOL_MINT amount net
                  (canTrade now amount st.wallet).1).1 =
                (canTrade now amount st.wallet).1 := by
              rw [executeSwap_fail_fst now addr SOL_MINT amount net _ hs', hagain]
            have hmain : executeTrade now addr direction amount probe net info st =
                ({ st with wallet := (canTrade now amount st.wallet).1 },
                 .failed (executeSwap now addr SOL_MINT amount net
                    (canTrade now amount st.wallet).1).2.error) := by
              simp [executeTrade, ha, ht, hc, hdir, hs', hsw]
            refine ⟨by rw [hmain], by rw [hmain], ?_, ?_⟩
            · rw [hmain]
              rcases canTrade_fst now amount st.wallet with h1 | ⟨_, h1⟩ <;> simp [h1]
            · rw [hmain]
              simpa using canTrade_fst now amount st.wallet

theorem C2_no_mutation_on_failure_witness :
    isFailureResponse
      (executeTrade 0 "TOKEN123" "buy" 1 (.ok ⟨false, false, none⟩)
        (.confirmed "TX" 1000000000 1) none
        ⟨⟨true, ⟨1, 2, 20, 1, 60000⟩, 0, 0, 0⟩, ⟨[], 15, 50⟩, true, []⟩).2 = true ∧
    (executeTrade 0 "TOKEN123" "buy" 1 (.ok ⟨false, false, none⟩)
        (.confirmed "TX" 1000000000 1) none
        ⟨⟨true, ⟨1, 2, 20, 1, 60000⟩, 0, 0, 0⟩, ⟨[], 15, 50⟩, true, []⟩).1.pm =
      (⟨[], 15, 50⟩ : PMState) := by
  have hfail : isFailureResponse
      (executeTrade 0 "TOKEN123" "buy" 1 (.ok ⟨false, false, none⟩)
        (.confirmed "TX" 1000000000 1) none
        ⟨⟨true, ⟨1, 2, 20, 1, 60000⟩, 0, 0, 0⟩, ⟨[], 15, 50⟩, true, []⟩).2 = true := by
    have hpump : endsWithPump "TOKEN123" = false := by decide
    have hne : ("TOKEN123" : String) ≠ "" := by decide
    norm_num [executeTrade, isTokenTradable, hpump, hne, isFailureResponse]
  exact ⟨hfail, (C2_no_mutation_on_failure 0 "TOKEN123" "buy" 1 _ _ _ _ hfail).1⟩

/-- C1: the position limit is NOT enforced.  `maxPositions` is declared in
`WalletConfig` ("Max concurrent positions", wallet.ts:39,47) and the spec
requires a buy to be denied with "position limit reached" once the
open-position count reaches it, but `executeTrade`
(trading.ts:1018-1133) never consults `maxPositions` or the position
count: with 2 = `maxPositions` positions already open, a buy passes every
check, executes, and opens a third position.  (No code path anywhere
produces a "position limit reached" denial: `DenyReason`, which
enumerates every `canTrade` denial, has no such case.) -/
theorem C1_position_limit_not_enforced :
    DEFAULT_CONFIG.maxPositions = 2 ∧
    C1_start.pm.positions.length = 2 ∧
    isSucceeded
      (executeTrade 100000 "TOKEN123" "buy" (1/2) (.ok ⟨true, false, some [()]⟩)
        (.confirmed "TX1" 2000000000 1) (some ⟨some "TOK", some 3⟩) C1_start).2 = true ∧
    (executeTrade 100000 "TOKEN123" "buy" (1/2) (.ok ⟨true, false, some [()]⟩)
        (.confirmed "TX1" 2000000000 1) (some ⟨some "TOK", some 3⟩)
        C1_start).1.pm.positions.length = 3 := by
  have hpump : endsWithPump "TOKEN123" = false := by decide
  have hne : ("TOKEN123" : String) ≠ "" := by decide
  have hA : ("A" : String) ≠ "TOKEN123" := by decide
  have hB : ("B" : String) ≠ "TOKEN123" := by decide
  refine ⟨rfl, rfl, ?_, ?_⟩ <;>
    norm_num [executeTrade, C1_start, isTokenTradable, hpump, hne, hA, hB,
      canTrade, executeSwap, DEFAULT_CONFIG, dayMs, openPosition, mapSet,
      isSucceeded, outScale, USDC_MINT, SOL_MINT, LAMPORTS_PER_SOL]

/-- C3: after a successful sell the flow closes the position
(trading.ts:1106-1109), and `closePosition` computes the realized pnl
(here `2 − 5 = −3` SOL), but `updateDailyPnl` — the spec's
`recordOutcome`, defined at wallet.ts:547-549 and read by `canTrade`'s
daily-loss check — is never called anywhere in the repository: the
decision flow discards the returned pnl and `dailyPnl` stays `0`, so
subsequent `canTrade` calls do not see the loss. -/
theorem C3_sell_pnl_not_recorded :
    isSucceeded
      (executeTrade 100000 "TOK1" "sell" 1 (.ok ⟨true, false, some [()]⟩)
        (.confirmed "TX2" 2000000000 1) none C3_start).2 = true ∧
    mapGet "TOK1"
      (executeTrade 100000 "TOK1" "sell" 1 (.ok ⟨true, false, some [()]⟩)
        (.confirmed "TX2" 2000000000 1) none C3_start).1.pm.positions = none ∧
    ((closePosition 100000 "TOK1" 0 2 C3_start.pm).2.map CloseResult.pnlSol) =
      some (-3) ∧
    (executeTrade 100000 "TOK1" "sell" 1 (.ok ⟨true, false, some [()]⟩)
        (.confirmed "TX2" 2000000000 1) none C3_start).1.wallet.dailyPnl = 0 := by
  have hpump : endsWithPump "TOK1" = false := by decide
  have hne : ("TOK1" : String) ≠ "" := by decide
  have hsell : ("sell" : String) ≠ "buy" := by decide
  refine ⟨?_, ?_, ?_, ?_⟩ <;>
    norm_num [executeTrade, C3_start, isTokenTradable, hpump, hne, hsell,
      canTrade, executeSwap, dayMs, closePosition, mapGet, mapDelete,
      isSucceeded, outScale, USDC_MINT, SOL_MINT, LAMPORTS_PER_SOL]

end Ara
